import Mathlib

/-
  Verification of the Construction_Private_GPT repository
  (src/ingest.py, src/privateGPT.py, src/constants.py) against its
  natural-language specification, via a shallow embedding in Lean 4.

  File-format parsers, the embedding model, the LLM runtimes and the
  Chroma store are external collaborators; they enter the embedding as
  explicit environment parameters (a loader function, a splitter
  function, a store modelled as a list of records).  Everything the
  repository itself computes - extension extraction, the loader
  registry lookup, glob-based discovery, the ignore-list filter,
  sequential aggregation of loader results, the empty-scan early exit,
  backend selection, the query loop, and the environment-variable
  startup reads (including Python int parsing with an explicit base) -
  is translated directly from the source.
-/

namespace PrivateGPT

/-- A parsed document: its source path and its text content
    (langchain Document with metadata source collapsed to the one
    metadata key the repository uses). -/
structure Document where
  source : String
  content : String
deriving Repr, DecidableEq

/-- The external loader capability: for a registered extension key and a
    file path, the result of constructing the registered loader class on
    the path and calling its load method.  An error models a raised
    exception inside the external parser. -/
structure LoaderEnv where
  load : String → String → Except String (List Document)

/-- The keys of LOADER_MAPPING in src/ingest.py lines 61-74 (the loader
    classes themselves are external; only the keys drive control flow). -/
def LOADER_MAPPING : List String :=
  [".csv", ".doc", ".docx", ".enex", ".epub", ".html", ".md", ".odt",
   ".ppt", ".pptx", ".pdf", ".txt"]

/-- ASCII lower-casing of one character (Python str.lower restricted to
    ASCII, which covers every extension and path the program compares). -/
def asciiLowerChar (c : Char) : Char :=
  if 'A' ≤ c ∧ c ≤ 'Z' then Char.ofNat (c.toNat + 32) else c

/-- ASCII upper-casing of one character (Python str.upper on ASCII). -/
def asciiUpperChar (c : Char) : Char :=
  if 'a' ≤ c ∧ c ≤ 'z' then Char.ofNat (c.toNat - 32) else c

/-- Python str.lower on ASCII text. -/
def pyLower (s : String) : String := String.mk (s.toList.map asciiLowerChar)

/-- Python str.upper on ASCII text. -/
def pyUpper (s : String) : String := String.mk (s.toList.map asciiUpperChar)

/-- Case-sensitive suffix test: does s end with the given suffix. -/
def suffixMatch (suffix s : String) : Bool :=
  decide (suffix.toList.reverse <+: s.toList.reverse)

/-- Python file_path.rsplit(".", 1)[-1]: the segment after the last dot,
    or the whole string when no dot occurs. -/
def afterLastDot (file_path : String) : String :=
  String.mk (((file_path.toList.reverse).takeWhile (fun c => c ≠ '.')).reverse)

/-- ingest.py line 81: ext = "." + file_path.rsplit(".", 1)[-1].lower() -/
def extOf (file_path : String) : String :=
  "." ++ pyLower (afterLastDot file_path)

/-- ingest.py lines 77-86: dispatch on the extension via LOADER_MAPPING,
    or raise ValueError naming the unsupported extension. -/
def load_single_document (env : LoaderEnv) (file_path : String) :
    Except String (List Document) :=
  let ext := extOf file_path
  if ext ∈ LOADER_MAPPING then
    env.load ext file_path
  else
    .error ("Unsupported file extension \x27" ++ ext ++ "\x27")

/-- Split a path's characters on the slash separator into its
    components. -/
def splitOnSlash : List Char → List (List Char)
  | [] => [[]]
  | c :: cs =>
    if c = '/' then [] :: splitOnSlash cs
    else
      match splitOnSlash cs with
      | [] => [[c]]
      | h :: t => (c :: h) :: t

/-- A path component is hidden when it starts with a dot; glob pattern
    components that do not themselves start with a dot never match
    hidden entries. -/
def hiddenComponent : List Char → Bool
  | '.' :: _ => true
  | _ => false

/-- The file paths (relative to the source directory) matched by the
    recursive glob pattern **/*suffix: the directories matched by **
    and the basename matched by *suffix must all be non-hidden, and the
    basename must end with the suffix (case-sensitively). -/
def globMatch (suffix f : String) : Bool :=
  let comps := splitOnSlash f.toList
  comps.all (fun l => !(hiddenComponent l)) &&
    (match comps.getLast? with
     | some base => suffixMatch suffix (String.mk base)
     | none => false)

/-- ingest.py lines 95-97, one iteration of the discovery loop: the files
    matched by glob(source_dir/**/*ext.lower(), recursive) followed by
    those matched with ext.upper().  The filesystem is a list of file
    paths below the source directory. -/
def all_files_for (fs : List String) (ext : String) : List String :=
  fs.filter (fun f => globMatch (pyLower ext) f) ++
    fs.filter (fun f => globMatch (pyUpper ext) f)

/-- ingest.py lines 93-97: all_files accumulated over LOADER_MAPPING. -/
def discover (fs : List String) : List String :=
  (LOADER_MAPPING.map (all_files_for fs)).flatten

/-- ingest.py line 99: filtered_files, dropping paths that occur in
    ignored_files. -/
def load_documents_files (fs ignored_files : List String) : List String :=
  (discover fs).filter (fun f => decide (f ∉ ignored_files))

/-- ingest.py lines 102-108: the worker pool maps load_single_document
    over the filtered files and the parent extends one result list as
    each task completes; a raised exception in any task propagates out.
    Modelled with the sequential schedule (one task at a time, in list
    order): the first failing file determines the error. -/
def loadAll (env : LoaderEnv) : List String → Except String (List Document)
  | [] => .ok []
  | f :: rest =>
    match load_single_document env f with
    | .error e => .error e
    | .ok docs =>
      match loadAll env rest with
      | .error e => .error e
      | .ok more => .ok (docs ++ more)

/-- ingest.py lines 89-108: load_documents = discovery, ignore filter,
    then the parallel load. -/
def load_documents (env : LoaderEnv) (fs ignored_files : List String) :
    Except String (List Document) :=
  loadAll env (load_documents_files fs ignored_files)

/-- A loader environment whose parser raises on bad.txt and succeeds on
    every other path. -/
def envC1 : LoaderEnv :=
  ⟨fun _ fp =>
    if fp = "bad.txt" then .error "parser exploded"
    else .ok [⟨fp, "good text"⟩]⟩

/-- A loader environment that always succeeds, recording the extension it
    was dispatched on. -/
def envW : LoaderEnv := ⟨fun ext fp => .ok [⟨fp, ext⟩]⟩

/-- The ingestion environment: the loader capability, the external
    RecursiveCharacterTextSplitter.split_documents (ingest.py lines
    122-123, an opaque chunking function), and the filesystem below
    source_directory. -/
structure IngestEnv where
  loader : LoaderEnv
  split : List Document → List Document
  fs : List String

/-- Outcome of process_documents: a sys.exit with a code and the printed
    message, a propagated exception, or the list of chunks. -/
inductive ProcResult where
  | exited (code : Nat) (msg : String)
  | raised (msg : String)
  | ok (texts : List Document)
deriving Repr, DecidableEq

/-- ingest.py lines 111-125: load, exit(0) when nothing was loaded,
    otherwise split into chunks. -/
def process_documents (env : IngestEnv) (ignored_files : List String) :
    ProcResult :=
  match load_documents env.loader env.fs ignored_files with
  | .error e => .raised e
  | .ok documents =>
    if documents.isEmpty then .exited 0 "No new documents to load"
    else .ok (env.split documents)

/-- Outcome of ingest.py main. -/
inductive MainOutcome where
  | exited (code : Nat) (msg : String)
  | raised (msg : String)
  | completed
deriving Repr, DecidableEq

/-- ingest.py lines 128-134: the store holds at least one record.  The
    persisted Chroma collection is modelled as the list of its records,
    each carrying the source metadata the program reads back. -/
def does_vectorstore_exist (store : List Document) : Bool :=
  !store.isEmpty

/-- ingest.py line 150: the source metadata of every stored record (one
    entry per chunk, so a source path may repeat). -/
def known_sources (store : List Document) : List String :=
  store.map (fun d => d.source)

/-- The ignore-list main passes to process_documents: the stored sources
    in append mode (ingest.py line 150), the default empty list in create
    mode (ingest.py line 155). -/
def ingest_ignored (store : List Document) : List String :=
  if does_vectorstore_exist store then known_sources store else []

/-- ingest.py lines 137-162: both branches run process_documents with
    their ignore-list and append the resulting chunks to the store
    (add_documents on the existing store, from_documents on the empty
    one); an exit or exception leaves the store as it was, since writes
    only happen after chunking succeeds. -/
def ingest_main (env : IngestEnv) (store : List Document) :
    MainOutcome × List Document :=
  match process_documents env (ingest_ignored store) with
  | .exited c m => (.exited c m, store)
  | .raised e => (.raised e, store)
  | .ok texts => (.completed, store ++ texts)

/-- Python str.isspace-relevant ASCII whitespace, the characters
    str.strip removes. -/
def pyIsSpace (c : Char) : Bool :=
  (c == ' ') || (c == '\t') || (c == '\n') || (c == '\r') ||
    (c == '\x0b') || (c == '\x0c')

/-- Python str.strip() with no argument: remove leading and trailing
    whitespace. -/
def pyStrip (s : String) : String :=
  String.mk (((s.toList.dropWhile pyIsSpace).reverse.dropWhile
    pyIsSpace).reverse)

/-- Python str(x) on an optional environment value: None prints as
    "None". -/
def pyOptStr : Option String → String
  | none => "None"
  | some s => s

/-- The two backend families privateGPT.py lines 50-58 can construct. -/
inductive Backend where
  | llamaCpp
  | gpt4all
deriving Repr, DecidableEq

/-- privateGPT.py lines 50-61: Python match on the model_type string is a
    sequence of equality tests with a raising default case. -/
def select_backend (model_type : Option String) : Except String Backend :=
  if model_type = some "LlamaCpp" then .ok .llamaCpp
  else if model_type = some "GPT4ALL" then .ok .gpt4all
  else .error ("Model Type " ++ pyOptStr model_type ++
    " is not supported. Please choose either \x27LlamaCpp\x27 or \x27GPT4All\x27")

/-- What one iteration of the query loop does with one line of input. -/
inductive QueryStep where
  | halt
  | skip
  | answer (q : String)
deriving Repr, DecidableEq

/-- privateGPT.py lines 68-81: break on the exact string exit, continue
    on input that strips to empty, otherwise run the QA chain on the
    query. -/
def loop_step (query : String) : QueryStep :=
  if query = "exit" then .halt
  else if pyStrip query = "" then .skip
  else .answer query

/-- The queries the loop actually submits to retrieval and generation,
    over a finite list of input lines. -/
def answered : List String → List String
  | [] => []
  | q :: rest =>
    match loop_step q with
    | .halt => []
    | .skip => answered rest
    | .answer q2 => q2 :: answered rest

/-- privateGPT.py main, abstracted over the externals: backend selection
    happens before the interactive loop, so an unsupported model type is
    an error before any input is consumed. -/
def qa_main (model_type : Option String) (inputs : List String) :
    Except String (List String) :=
  match select_backend model_type with
  | .error e => .error e
  | .ok _ => .ok (answered inputs)

/-- The decimal digit value of a character, when it is one.  Python int
    with an explicit base also accepts letters for bases above ten and
    underscores between digits; neither arises at bases 8 and 4. -/
def pyDigitVal (c : Char) : Option Nat :=
  if '0' ≤ c ∧ c ≤ '9' then some (c.toNat - '0'.toNat) else none

/-- Is c a digit the given base accepts. -/
def pyDigitOk (base : Nat) (c : Char) : Bool :=
  match pyDigitVal c with
  | some d => decide (d < base)
  | none => false

/-- Accumulate the value of a digit string in the given base; none when a
    character is not a valid digit of that base. -/
def pyIntDigits (base : Nat) : Nat → List Char → Option Nat
  | acc, [] => some acc
  | acc, c :: cs =>
    match pyDigitVal c with
    | some d => if d < base then pyIntDigits base (acc * base + d) cs else none
    | none => none

/-- The ValueError message of Python int on an unparsable literal. -/
def invalidLiteralMsg (base : Nat) (s : String) : String :=
  "invalid literal for int() with base " ++ toString base ++
    ": \x27" ++ s ++ "\x27"

/-- Parse the sign-stripped digit part. -/
def pyIntCore (base : Nat) (s : String) (sign : Int) (cs : List Char) :
    Except String Int :=
  if cs = [] then .error (invalidLiteralMsg base s)
  else
    match pyIntDigits base 0 cs with
    | some n => .ok (sign * n)
    | none => .error (invalidLiteralMsg base s)

/-- Python int(s, base): strip whitespace, optional sign, then digits of
    the base. -/
def pyIntBase (s : String) (base : Nat) : Except String Int :=
  match (pyStrip s).toList with
  | [] => .error (invalidLiteralMsg base s)
  | a :: cs =>
    if a = '+' then pyIntCore base s 1 cs
    else if a = '-' then pyIntCore base s (-1) cs
    else pyIntCore base s 1 (a :: cs)

/-- An environment whose batch-size value holds the digit 8. -/
def envC10W : String → Option String := fun k =>
  if k = "PERSIST_DIRECTORY" then some "db"
  else if k = "MODEL_N_BATCH" then some "18"
  else none

/-- Python int(os.environ.get(k), base): a missing variable is None and
    int(None, base) is a TypeError. -/
def pyIntOfEnv (v : Option String) (base : Nat) : Except String Int :=
  match v with
  | none => .error "int() can\x27t convert non-string with explicit base"
  | some s => pyIntBase s base

/-- The module-level configuration privateGPT.py lines 20-26 build. -/
structure RuntimeConfig where
  embeddings_model_name : Option String
  persist_directory : Option String
  model_type : Option String
  model_path : Option String
  model_n_ctx : Option String
  model_n_batch : Int
  target_source_chunks : Int
deriving Repr, DecidableEq

/-- Import-time startup of privateGPT.py: importing constants.py first
    checks PERSIST_DIRECTORY (constants.py lines 10-13, raising an
    Exception naming it), then lines 20-26 read the remaining variables
    with no presence checks, parsing MODEL_N_BATCH with int(value, 8) and
    TARGET_SOURCE_CHUNKS with int(value, 4) (privateGPT.py lines 25-26:
    the intended default argument is misplaced into the base argument). -/
def startup (env : String → Option String) : Except String RuntimeConfig :=
  match env "PERSIST_DIRECTORY" with
  | none => .error "Please set the PERSIST_DIRECTORY environment variable"
  | some _ =>
    match pyIntOfEnv (env "MODEL_N_BATCH") 8 with
    | .error e => .error e
    | .ok nb =>
      match pyIntOfEnv (env "TARGET_SOURCE_CHUNKS") 4 with
      | .error e => .error e
      | .ok tsc =>
        .ok { embeddings_model_name := env "EMBEDDINGS_MODEL_NAME"
              persist_directory := env "PERSIST_DIRECTORY"
              model_type := env "MODEL_TYPE"
              model_path := env "MODEL_PATH"
              model_n_ctx := env "MODEL_N_CTX"
              model_n_batch := nb
              target_source_chunks := tsc }

/-- An environment with every recognized option except the embeddings
    model name. -/
def envC7 : String → Option String := fun k =>
  if k = "PERSIST_DIRECTORY" then some "db"
  else if k = "MODEL_TYPE" then some "GPT4ALL"
  else if k = "MODEL_PATH" then some "models/ggml-model.bin"
  else if k = "MODEL_N_CTX" then some "1000"
  else if k = "MODEL_N_BATCH" then some "7"
  else if k = "TARGET_SOURCE_CHUNKS" then some "3"
  else none

/-- An environment with no variables at all. -/
def envEmpty : String → Option String := fun _ => none

/-- An environment with only the store location set. -/
def envOnlyPD : String → Option String := fun k =>
  if k = "PERSIST_DIRECTORY" then some "db" else none

/-- An environment whose batch-size and chunk-count values are both the
    numeral 10. -/
def envC10 : String → Option String := fun k =>
  if k = "PERSIST_DIRECTORY" then some "db"
  else if k = "MODEL_N_BATCH" then some "10"
  else if k = "TARGET_SOURCE_CHUNKS" then some "10"
  else none

/-- The configuration envC10 produces. -/
def cfgC10 : RuntimeConfig :=
  { embeddings_model_name := none
    persist_directory := some "db"
    model_type := none
    model_path := none
    model_n_ctx := none
    model_n_batch := 8
    target_source_chunks := 4 }

/-- A concrete ingestion environment over an empty source root. -/
def envC5 : IngestEnv := ⟨envW, fun ds => ds, []⟩

/-- A concrete ingestion environment for the dedup scenario. -/
def envC4 : IngestEnv := ⟨envW, fun ds => ds, ["b.txt", "c.txt", "a.txt"]⟩

/-- A store already holding chunks of a.txt and b.txt (a.txt twice, as
    one record per chunk). -/
def storeC4 : List Document :=
  [⟨"a.txt", "alpha"⟩, ⟨"b.txt", "beta"⟩, ⟨"a.txt", "alpha2"⟩]

/- ------------------------------------------------------------------ -/
/- Theorems                                                           -/
/- ------------------------------------------------------------------ -/

/-- If some file in the list fails to load, the whole sequential
    aggregation fails. -/
lemma loadAll_error (env : LoaderEnv) (files : List String) (f e : String)
    (hf : f ∈ files) (he : load_single_document env f = .error e) :
    ∃ msg, loadAll env files = .error msg := by
  induction files with
  | nil => cases hf
  | cons g rest ih =>
    rcases List.mem_cons.mp hf with hg | hrest
    · subst hg
      exact ⟨e, by simp [loadAll, he]⟩
    · cases h1 : load_single_document env g with
      | error e1 => exact ⟨e1, by simp [loadAll, h1]⟩
      | ok docs =>
        rcases ih hrest with ⟨msg, hmsg⟩
        exact ⟨msg, by simp [loadAll, h1, hmsg]⟩

/-- Claim C1 counterexample: with a loader that fails on bad.txt and
    succeeds on good.txt, load_documents on a root holding both files
    returns the loader error, not the concatenation of the successfully
    loaded Documents from the other file. -/
theorem claim_C1_counterexample :
    load_single_document envC1 "good.txt" =
        .ok [⟨"good.txt", "good text"⟩] ∧
    load_single_document envC1 "bad.txt" = .error "parser exploded" ∧
    load_documents envC1 ["good.txt", "bad.txt"] [] =
        .error "parser exploded" ∧
    load_documents envC1 ["good.txt", "bad.txt"] [] ≠
        .ok [⟨"good.txt", "good text"⟩] :=
  ⟨rfl, rfl, rfl,
   fun h => Except.noConfusion
     ((rfl : load_documents envC1 ["good.txt", "bad.txt"] [] =
        .error "parser exploded").symm.trans h)⟩

/-- Claim C1 (amended): a loader error for any one discovered file is not
    isolated: it propagates and the whole load_documents call fails, so
    no Documents from the other files are returned. -/
theorem claim_C1_amended (env : LoaderEnv) (fs ignored_files : List String)
    (f e : String) (hf : f ∈ load_documents_files fs ignored_files)
    (he : load_single_document env f = .error e) :
    ∃ msg, load_documents env fs ignored_files = .error msg :=
  loadAll_error env (load_documents_files fs ignored_files) f e hf he

/-- Claim C1 amended, witnessed at the concrete two-file root. -/
theorem claim_C1_amended_witness :
    ∃ msg, load_documents envC1 ["good.txt", "bad.txt"] [] = .error msg :=
  claim_C1_amended envC1 ["good.txt", "bad.txt"] [] "bad.txt"
    "parser exploded" (by decide) rfl

/-- Claim C2 counterexample: doc.Txt has a mixed-case extension whose
    lower-casing is the registered key .txt, yet discovery (which globs
    only the all-lowercase and all-uppercase spelling of each key) does
    not produce it as a candidate. -/
theorem claim_C2_counterexample :
    extOf "doc.Txt" ∈ LOADER_MAPPING ∧
    load_documents_files ["doc.Txt"] [] = [] :=
  ⟨by decide, by decide⟩

/-- Claim C2 (amended): discovery over an empty ignore-list yields
    exactly the files under the root that some registered extension's
    pair of glob patterns matches: no hidden (dot-prefixed) path
    component, and a basename ending in the all-lowercase or the
    all-uppercase spelling of the registered identifier.  In particular
    a mixed-case extension such as .Txt is never discovered, and neither
    is any hidden file. -/
theorem claim_C2_amended (fs : List String) (f : String) :
    f ∈ load_documents_files fs [] ↔
      f ∈ fs ∧ ∃ ext ∈ LOADER_MAPPING,
        (globMatch (pyLower ext) f = true ∨
         globMatch (pyUpper ext) f = true) := by
  have hall : ∀ ext, f ∈ all_files_for fs ext ↔
      f ∈ fs ∧ (globMatch (pyLower ext) f = true ∨
        globMatch (pyUpper ext) f = true) := by
    intro ext
    unfold all_files_for
    rw [List.mem_append, List.mem_filter, List.mem_filter]
    tauto
  have hfe : (discover fs).filter
      (fun g => decide (g ∉ ([] : List String))) = discover fs :=
    List.filter_eq_self.mpr (fun a _ => by simp)
  unfold load_documents_files
  rw [hfe]
  unfold discover
  rw [List.mem_flatten]
  constructor
  · rintro ⟨l, hl, hf⟩
    rcases List.mem_map.mp hl with ⟨ext, hext, rfl⟩
    rcases (hall ext).mp hf with ⟨hffs, hg⟩
    exact ⟨hffs, ext, hext, hg⟩
  · rintro ⟨hffs, ext, hext, hg⟩
    exact ⟨all_files_for fs ext, List.mem_map_of_mem _ hext,
      (hall ext).mpr ⟨hffs, hg⟩⟩

/-- Claim C2 amended, witnessed both ways on a root holding an ordinary,
    an uppercase and a hidden file: the ordinary and uppercase files are
    discovered, the hidden one is not. -/
theorem claim_C2_amended_witness :
    "a.txt" ∈ load_documents_files ["a.txt", "B.TXT", ".hidden.txt"] [] ∧
    "B.TXT" ∈ load_documents_files ["a.txt", "B.TXT", ".hidden.txt"] [] ∧
    ".hidden.txt" ∉ load_documents_files ["a.txt", "B.TXT", ".hidden.txt"] [] :=
  ⟨(claim_C2_amended ["a.txt", "B.TXT", ".hidden.txt"] "a.txt").mpr
      ⟨by decide, ".txt", by decide, Or.inl (by decide)⟩,
   (claim_C2_amended ["a.txt", "B.TXT", ".hidden.txt"] "B.TXT").mpr
      ⟨by decide, ".txt", by decide, Or.inr (by decide)⟩,
   fun h => absurd
     ((claim_C2_amended ["a.txt", "B.TXT", ".hidden.txt"] ".hidden.txt").mp h).2
     (by decide)⟩

/-- Claim C8: load_single_document fails with an error naming the
    (lower-cased, dot-prefixed) type identifier when it is not a key of
    the registry, and dispatches to the registered strategy when it is;
    the registry itself is a fixed value, so the lookup cannot mutate it. -/
theorem claim_C8 (env : LoaderEnv) (file_path : String) :
    (extOf file_path ∉ LOADER_MAPPING →
      load_single_document env file_path =
        .error ("Unsupported file extension \x27" ++ extOf file_path ++ "\x27")) ∧
    (extOf file_path ∈ LOADER_MAPPING →
      load_single_document env file_path =
        env.load (extOf file_path) file_path) := by
  constructor <;> intro h <;> simp [load_single_document, h]

/-- Claim C3: an unrecognized model type makes the orchestrator fail
    with a message naming the configured value, independent of the input
    stream, so before any query is read or processed. -/
theorem claim_C3 (model_type : Option String) (inputs : List String)
    (h1 : model_type ≠ some "LlamaCpp") (h2 : model_type ≠ some "GPT4ALL") :
    qa_main model_type inputs =
      .error ("Model Type " ++ pyOptStr model_type ++
        " is not supported. Please choose either \x27LlamaCpp\x27 or \x27GPT4All\x27") := by
  simp [qa_main, select_backend, h1, h2]

/-- Claim C3, witnessed at the configured value Foo with a pending
    query. -/
theorem claim_C3_witness :
    qa_main (some "Foo") ["what is rule 42?"] =
      .error ("Model Type " ++ pyOptStr (some "Foo") ++
        " is not supported. Please choose either \x27LlamaCpp\x27 or \x27GPT4All\x27") :=
  claim_C3 (some "Foo") ["what is rule 42?"] (by decide) (by decide)

/-- Claim C5: when scanning yields zero Documents, ingestion exits with
    status 0 and the nothing-new message, and the store is unchanged;
    the splitter is never consulted (the conclusion holds for every
    splitter in the environment). -/
theorem claim_C5 (env : IngestEnv) (store : List Document)
    (h : load_documents env.loader env.fs (ingest_ignored store) = .ok []) :
    process_documents env (ingest_ignored store) =
        .exited 0 "No new documents to load" ∧
    ingest_main env store = (.exited 0 "No new documents to load", store) := by
  have hp : process_documents env (ingest_ignored store) =
      .exited 0 "No new documents to load" := by
    simp [process_documents, h]
  exact ⟨hp, by simp [ingest_main, hp]⟩

/-- Claim C5, witnessed on the empty source root and the empty store. -/
theorem claim_C5_witness :
    process_documents envC5 (ingest_ignored []) =
        .exited 0 "No new documents to load" ∧
    ingest_main envC5 [] = (.exited 0 "No new documents to load", []) :=
  claim_C5 envC5 [] rfl

/-- Claim C6: an input line that is empty or all whitespace is skipped;
    the loop answers nothing for it and continues with the remaining
    input lines. -/
theorem claim_C6 (q : String) (rest : List String)
    (h : q.toList.all pyIsSpace = true) :
    loop_step q = .skip ∧ answered (q :: rest) = answered rest := by
  have hne : q ≠ "exit" := by
    intro he
    rw [he] at h
    exact absurd h (by decide)
  have h1 : q.toList.dropWhile pyIsSpace = [] := by
    rw [List.dropWhile_eq_nil_iff]
    intro x hx
    exact List.all_eq_true.mp h x hx
  have hstrip : pyStrip q = "" := by
    have h1d : List.dropWhile pyIsSpace q.data = [] := h1
    unfold pyStrip
    rw [show q.toList = q.data from rfl, h1d]
    rfl
  have hs : loop_step q = .skip := by
    simp [loop_step, hne, hstrip]
  exact ⟨hs, by simp [answered, hs]⟩

/-- Claim C6, witnessed at a whitespace-only line followed by a real
    query. -/
theorem claim_C6_witness :
    loop_step " \t" = .skip ∧
    answered [" \t", "hello"] = answered ["hello"] :=
  claim_C6 " \t" ["hello"] (by decide)

/-- Claim C9: the sentinel comparison is exact and precedes stripping:
    the exact string exit halts the loop, while any distinct string that
    merely strips to exit is processed as an ordinary query. -/
theorem claim_C9 (q : String) (hstrip : pyStrip q = "exit")
    (hne : q ≠ "exit") :
    loop_step "exit" = .halt ∧ loop_step q = .answer q := by
  refine ⟨by simp [loop_step], ?_⟩
  have hns : pyStrip q ≠ "" := by
    rw [hstrip]
    decide
  simp [loop_step, hne, hns]

/-- Claim C9, witnessed at the padded sentinel. -/
theorem claim_C9_witness :
    loop_step "exit" = .halt ∧ loop_step " exit " = .answer " exit " :=
  claim_C9 " exit " (by decide) (by decide)

/-- Claim C8, witnessed at an unregistered and a registered extension. -/
theorem claim_C8_witness :
    load_single_document envW "notes.xyz" =
        .error ("Unsupported file extension \x27" ++ extOf "notes.xyz" ++ "\x27") ∧
    load_single_document envW "notes.txt" =
        envW.load (extOf "notes.txt") "notes.txt" :=
  ⟨(claim_C8 envW "notes.xyz").1 (by decide),
   (claim_C8 envW "notes.txt").2 (by decide)⟩

/-- Discovery respects permutation of the filesystem listing,
    keyed over any registry key list. -/
lemma flatten_map_perm (keys : List String) (fs gs : List String)
    (h : fs.Perm gs) :
    ((keys.map (all_files_for fs)).flatten).Perm
      ((keys.map (all_files_for gs)).flatten) := by
  induction keys with
  | nil => simp
  | cons k ks ih =>
    simp only [List.map_cons, List.flatten_cons]
    exact ((h.filter _).append (h.filter _)).append ih

/-- Discovery respects permutation of the filesystem listing. -/
lemma discover_perm {fs gs : List String} (h : fs.Perm gs) :
    (discover fs).Perm (discover gs) :=
  flatten_map_perm LOADER_MAPPING fs gs h

/-- Loading a single filtered file is exactly one loader dispatch. -/
lemma loadAll_singleton (env : LoaderEnv) (f : String) :
    loadAll env [f] = load_single_document env f := by
  cases h : load_single_document env f <;> simp [loadAll, h]

/-- Claim C4: with stored sources exactly a.txt and b.txt and a source
    root holding exactly a.txt, b.txt, c.txt, the append-mode ignore
    filter leaves exactly c.txt, and loading reduces to the single
    dispatch on c.txt. -/
theorem claim_C4 (env : IngestEnv) (store : List Document)
    (hfs : env.fs.Perm ["a.txt", "b.txt", "c.txt"])
    (hst : ∀ s, s ∈ known_sources store ↔
      s ∈ (["a.txt", "b.txt"] : List String)) :
    load_documents_files env.fs (ingest_ignored store) = ["c.txt"] ∧
    load_documents env.loader env.fs (ingest_ignored store) =
      load_single_document env.loader "c.txt" := by
  have pa : "a.txt" ∈ known_sources store := (hst "a.txt").mpr (by decide)
  have pb : "b.txt" ∈ known_sources store := (hst "b.txt").mpr (by decide)
  have pc : "c.txt" ∉ known_sources store := by
    intro hcmem
    have h2 := (hst "c.txt").mp hcmem
    simp at h2
  have hne : store ≠ [] := by
    intro h0
    rw [h0] at pa
    simp [known_sources] at pa
  have hig : ingest_ignored store = known_sources store := by
    simp [ingest_ignored, does_vectorstore_exist, hne]
  have hperm : (discover env.fs).Perm ["a.txt", "b.txt", "c.txt"] := by
    have h1 := discover_perm hfs
    rw [show discover ["a.txt", "b.txt", "c.txt"] =
      ["a.txt", "b.txt", "c.txt"] from by decide] at h1
    exact h1
  have h3 : (["a.txt", "b.txt", "c.txt"] : List String).filter
      (fun f => decide (f ∉ known_sources store)) = ["c.txt"] := by
    simp [List.filter, pa, pb, pc]
  have hfilter : load_documents_files env.fs (ingest_ignored store) =
      ["c.txt"] := by
    rw [hig]
    unfold load_documents_files
    have h2 := hperm.filter (fun f => decide (f ∉ known_sources store))
    rw [h3] at h2
    exact List.perm_singleton.mp h2
  refine ⟨hfilter, ?_⟩
  unfold load_documents
  rw [hfilter]
  exact loadAll_singleton env.loader "c.txt"

/-- Claim C4, witnessed at a shuffled root listing and a store whose
    records repeat a source. -/
theorem claim_C4_witness :
    load_documents_files envC4.fs (ingest_ignored storeC4) = ["c.txt"] ∧
    load_documents envC4.loader envC4.fs (ingest_ignored storeC4) =
      load_single_document envC4.loader "c.txt" :=
  claim_C4 envC4 storeC4 (by decide)
    (by
      intro s
      simp [storeC4, known_sources, List.mem_cons]
      tauto)

/-- Claim C7 counterexample: every option except the embeddings model
    name is present, the embeddings model name is absent, and startup
    succeeds instead of failing with a diagnostic naming it. -/
theorem claim_C7_counterexample :
    envC7 "EMBEDDINGS_MODEL_NAME" = none ∧
    startup envC7 = .ok
      { embeddings_model_name := none
        persist_directory := some "db"
        model_type := some "GPT4ALL"
        model_path := some "models/ggml-model.bin"
        model_n_ctx := some "1000"
        model_n_batch := 7
        target_source_chunks := 3 } :=
  ⟨rfl, rfl⟩

/-- Claim C7 (amended): only the store location is checked by name - its
    absence is a fatal error naming PERSIST_DIRECTORY; an absent batch
    size also aborts startup, but with a TypeError from int that does not
    name the option. -/
theorem claim_C7_amended (env : String → Option String) (pd : String) :
    (env "PERSIST_DIRECTORY" = none →
      startup env =
        .error "Please set the PERSIST_DIRECTORY environment variable") ∧
    (env "PERSIST_DIRECTORY" = some pd → env "MODEL_N_BATCH" = none →
      startup env =
        .error "int() can\x27t convert non-string with explicit base") := by
  constructor
  · intro h
    simp [startup, h]
  · intro h1 h2
    simp [startup, h1, h2, pyIntOfEnv]

/-- Claim C7 amended, witnessed on the empty environment and on one
    holding only the store location. -/
theorem claim_C7_amended_witness :
    startup envEmpty =
      .error "Please set the PERSIST_DIRECTORY environment variable" ∧
    startup envOnlyPD =
      .error "int() can\x27t convert non-string with explicit base" :=
  ⟨(claim_C7_amended envEmpty "db").1 rfl,
   (claim_C7_amended envOnlyPD "db").2 rfl rfl⟩

/-- A character that is no acceptable digit of the base poisons the whole
    digit string. -/
lemma pyIntDigits_none (base : Nat) (c : Char)
    (hc : pyDigitOk base c = false) :
    ∀ (acc : Nat) (cs : List Char), c ∈ cs →
      pyIntDigits base acc cs = none := by
  intro acc cs
  induction cs generalizing acc with
  | nil => intro h; cases h
  | cons a cs ih =>
    intro hmem
    cases hda : pyDigitVal a with
    | none => simp [pyIntDigits, hda]
    | some d =>
      by_cases hd : d < base
      · rcases List.mem_cons.mp hmem with rfl | hmem2
        · simp [pyDigitOk, hda] at hc
          omega
        · simp only [pyIntDigits, hda, if_pos hd]
          exact ih _ hmem2
      · simp [pyIntDigits, hda, hd]

/-- pyIntCore fails with the invalid-literal message when the digit part
    holds an unacceptable character. -/
lemma pyIntCore_error (base : Nat) (s : String) (sign : Int)
    (cs : List Char) (c : Char) (hmem : c ∈ cs)
    (hc : pyDigitOk base c = false) :
    pyIntCore base s sign cs = .error (invalidLiteralMsg base s) := by
  have hne : cs ≠ [] := by
    intro h
    rw [h] at hmem
    cases hmem
  simp [pyIntCore, hne, pyIntDigits_none base c hc 0 cs hmem]

/-- dropWhile keeps every element the predicate rejects. -/
lemma mem_dropWhile (p : Char → Bool) (c : Char) (hc : p c = false) :
    ∀ l : List Char, c ∈ l → c ∈ l.dropWhile p := by
  intro l
  induction l with
  | nil => intro h; cases h
  | cons a l ih =>
    intro h
    rw [List.dropWhile_cons]
    by_cases ha : p a = true
    · simp only [ha, if_true]
      rcases List.mem_cons.mp h with rfl | h2
      · rw [hc] at ha
        cases ha
      · exact ih h2
    · simp only [Bool.not_eq_true] at ha
      simp only [ha, Bool.false_eq_true, if_false]
      exact h

/-- Stripping removes only whitespace, so a non-whitespace character of s
    survives into pyStrip s. -/
lemma mem_pyStrip (s : String) (c : Char) (hmem : c ∈ s.toList)
    (hws : pyIsSpace c = false) : c ∈ (pyStrip s).toList := by
  have h1 : c ∈ s.toList.dropWhile pyIsSpace :=
    mem_dropWhile pyIsSpace c hws s.toList hmem
  have h2 : c ∈ (s.toList.dropWhile pyIsSpace).reverse :=
    List.mem_reverse.mpr h1
  have h3 : c ∈ (s.toList.dropWhile pyIsSpace).reverse.dropWhile pyIsSpace :=
    mem_dropWhile pyIsSpace c hws _ h2
  exact List.mem_reverse.mpr h3

/-- int(s, base) fails with the invalid-literal message whenever s holds
    a non-sign, non-whitespace character that the base does not accept as
    a digit. -/
lemma pyIntBase_error (s : String) (base : Nat) (c : Char)
    (hmem : c ∈ s.toList) (hws : pyIsSpace c = false)
    (hplus : c ≠ '+') (hminus : c ≠ '-')
    (hbad : pyDigitOk base c = false) :
    pyIntBase s base = .error (invalidLiteralMsg base s) := by
  have h1 : c ∈ (pyStrip s).toList := mem_pyStrip s c hmem hws
  unfold pyIntBase
  split
  · rfl
  · next a cs heq =>
    rw [heq] at h1
    by_cases hpa : a = '+'
    · rw [if_pos hpa]
      rcases List.mem_cons.mp h1 with rfl | h2
      · exact absurd hpa hplus
      · exact pyIntCore_error base s 1 cs c h2 hbad
    · rw [if_neg hpa]
      by_cases hma : a = '-'
      · rw [if_pos hma]
        rcases List.mem_cons.mp h1 with rfl | h2
        · exact absurd hma hminus
        · exact pyIntCore_error base s (-1) cs c h2 hbad
      · rw [if_neg hma]
        exact pyIntCore_error base s 1 (a :: cs) c h1 hbad

/-- Claim C10 counterexample: with both values set to the numeral 10,
    startup succeeds and the retrieved-chunk count parses to 4, not to
    the 8 that base-8 parsing would give (the chunk count is parsed with
    base 4, not base 8). -/
theorem claim_C10_counterexample :
    startup envC10 = .ok cfgC10 ∧
    cfgC10.model_n_batch = 8 ∧
    cfgC10.target_source_chunks = 4 ∧ ((4 : Int) ≠ 8) :=
  ⟨rfl, rfl, rfl, by decide⟩

/-- Claim C10 (amended): the batch size is parsed base-8 and the chunk
    count base-4 - the numeral 10 parses to 8 and to 4 respectively - and
    a batch-size value holding the digit 8 or 9 is rejected at import
    time with the invalid-literal error. -/
theorem claim_C10_amended (env : String → Option String) (pd s : String)
    (hpd : env "PERSIST_DIRECTORY" = some pd)
    (hnb : env "MODEL_N_BATCH" = some s)
    (hc : '8' ∈ s.toList ∨ '9' ∈ s.toList) :
    pyIntBase "10" 8 = .ok 8 ∧ pyIntBase "10" 4 = .ok 4 ∧
    startup env = .error (invalidLiteralMsg 8 s) := by
  refine ⟨rfl, rfl, ?_⟩
  have herr : pyIntBase s 8 = .error (invalidLiteralMsg 8 s) := by
    rcases hc with h8 | h9
    · exact pyIntBase_error s 8 '8' h8 (by decide) (by decide) (by decide)
        (by decide)
    · exact pyIntBase_error s 8 '9' h9 (by decide) (by decide) (by decide)
        (by decide)
  simp [startup, hpd, hnb, pyIntOfEnv, herr]

/-- Claim C10 amended, witnessed at the batch-size value 18. -/
theorem claim_C10_amended_witness :
    pyIntBase "10" 8 = .ok 8 ∧ pyIntBase "10" 4 = .ok 4 ∧
    startup envC10W = .error (invalidLiteralMsg 8 "18") :=
  claim_C10_amended envC10W "db" "18" rfl rfl (Or.inl (by decide))

end PrivateGPT
